import Mathlib

/-!
Shallow embedding of the query-dispatch core of a multi-engine database
gateway (`main.py` and `config_db.py`): the connection registry, the
parameter builder, the ObjectId string coercion helper and the
`execute_query` dispatcher, together with proofs of the specification
claims about them.
-/

/-- JSON-like values as they appear in filters, parameter bags and rows.
`oid` models a native BSON `ObjectId` (carrying its 24-hex-digit string). -/
inductive JVal where
  | str  : String → JVal
  | num  : Int → JVal
  | bool : Bool → JVal
  | null : JVal
  | oid  : String → JVal
  | obj  : List (String × JVal) → JVal
  | arr  : List JVal → JVal

/-- Hexadecimal digit test, matching what `bson.ObjectId` accepts in its
24-character string form. -/
def isHexChar (c : Char) : Bool :=
  c.isDigit || ('a' ≤ c && c ≤ 'f') || ('A' ≤ c && c ≤ 'F')

/-- Validity of a string as an ObjectId: exactly 24 hexadecimal characters. -/
def isValidOid (s : String) : Bool :=
  s.length == 24 && s.data.all isHexChar

/-- Models the `ObjectId(value)` constructor applied to a filter value: a
valid 24-hex-character string (or an existing ObjectId) succeeds; anything
else raises, which the caller's `try/except: pass` treats as failure.
(`ObjectId(None)` would generate a fresh identifier; a JSON `null` under an
`$oid` marker is outside the inputs exercised by the claims.) -/
def tryObjectId : JVal → Option String
  | .str s => if isValidOid s then some s else none
  | .oid s => some s
  | _ => none

mutual

/-- `_convert_objectid_strings(obj)` (main.py lines 19-37): on a dict,
rewrite each field; any non-dict argument is returned unchanged. -/
def convert : JVal → JVal
  | .obj fields => .obj (convertFields fields)
  | v => v

/-- One pass over a dict's items (`for key, value in obj.items()`). -/
def convertFields : List (String × JVal) → List (String × JVal)
  | [] => []
  | (k, v) :: rest => (k, convertValue v) :: convertFields rest

/-- The branch chain applied to each dict value: a dict carrying an `$oid`
marker is replaced by the ObjectId when the marker converts (and left whole
otherwise); a 24-character string is opportunistically converted; other
dicts are walked recursively; lists have only their dict items walked. -/
def convertValue : JVal → JVal
  | .obj inner =>
    match inner.find? (fun kv => kv.1 == "$oid") with
    | some kv =>
      match tryObjectId kv.2 with
      | some h => .oid h
      | none => .obj inner
    | none => .obj (convertFields inner)
  | .str s =>
    if s.length == 24 then
      match tryObjectId (.str s) with
      | some h => .oid h
      | none => .str s
    else .str s
  | .arr items => .arr (convertItems items)
  | v => v

/-- `[_convert_objectid_strings(item) if isinstance(item, dict) else item
for item in value]` (main.py line 36). -/
def convertItems : List JVal → List JVal
  | [] => []
  | JVal.obj fields :: rest => JVal.obj (convertFields fields) :: convertItems rest
  | v :: rest => v :: convertItems rest

end

/-- The transformation `convertItems` applies to a single list element. -/
def convertItem : JVal → JVal
  | .obj fields => .obj (convertFields fields)
  | v => v

/-- A parameter bag: an insertion-ordered dictionary of JSON values, as
produced by `_build_and_validate_params` and persisted as `params_json`. -/
abbrev ParamBag := List (String × JVal)

/-- `dict.get(k)` on a parameter bag. -/
def bagGet (p : ParamBag) (k : String) : Option JVal :=
  (p.find? (fun kv => kv.1 == k)).map (fun kv => kv.2)

/-- Presence of a key in a parameter bag. -/
def bagHasKey (p : ParamBag) (k : String) : Bool :=
  p.any (fun kv => kv.1 == k)

/-- `dict.pop(k)`: the removed value together with the remaining bag.  (In
the source a missing key would raise `KeyError`; the one caller pops keys it
inserted a few lines earlier.) -/
def bagPop (p : ParamBag) (k : String) : Option JVal × ParamBag :=
  (bagGet p k, p.filter (fun kv => !(kv.1 == k)))

/-- Python `str()` of a bag value, for the DSN f-string.  Only `str` and
`num` values ever reach it in the builder. -/
def jvalStr : JVal → String
  | .str s => s
  | .num n => toString n
  | .bool b => if b then "True" else "False"
  | .null => "None"
  | .oid s => s
  | .obj _ => ""
  | .arr _ => ""

/-- `str()` of a popped value (the pop never misses in the source). -/
def popStr (x : Option JVal) : String :=
  match x with
  | some v => jvalStr v
  | none => ""

/-- Python truthiness of an optional string argument (`None` and `""` are
falsy). -/
def strTruthy : Option String → Bool
  | none => false
  | some s => !(s == "")

/-- Python truthiness of an optional int argument (`None` and `0` are
falsy). -/
def intTruthy : Option Int → Bool
  | none => false
  | some n => !(n == 0)

/-- `_build_and_validate_params` (main.py lines 39-70).  Validates the
caller-supplied connection fields per engine kind and builds the params
dictionary for storage; a raised `ValueError` is modelled as `.error`. -/
def buildAndValidateParams (db_type : String) (host : Option String)
    (port : Option Int) (user : Option String) (password : Option String)
    (dbname : Option String) (uri : Option String) : Except String ParamBag :=
  if db_type == "mongo" then
    if !(strTruthy uri) || !(strTruthy dbname) then
      .error "For MongoDB, 'uri' and 'dbname' are required."
    else
      .ok [("uri", .str (uri.getD "")), ("dbname", .str (dbname.getD ""))]
  else if ["postgres", "mysql", "oracle"].contains db_type then
    if !(strTruthy host && intTruthy port && strTruthy user &&
          strTruthy password && strTruthy dbname) then
      .error ("For " ++ db_type ++
        ", 'host', 'port', 'user', 'password', and 'dbname' are required.")
    else
      let base : ParamBag :=
        [("host", .str (host.getD "")), ("port", .num (port.getD 0)),
         ("user", .str (user.getD "")), ("password", .str (password.getD ""))]
      let withDb : ParamBag :=
        if db_type == "mysql" then base ++ [("database", .str (dbname.getD ""))]
        else base ++ [("dbname", .str (dbname.getD ""))]
      if db_type == "oracle" then
        let hpop := bagPop withDb "host"
        let ppop := bagPop hpop.2 "port"
        let dpop := bagPop ppop.2 "dbname"
        .ok (dpop.2 ++
          [("dsn", .str (popStr hpop.1 ++ ":" ++ popStr ppop.1 ++ "/" ++ popStr dpop.1))])
      else
        .ok withDb
  else
    .error ("Unsupported database type: " ++ db_type)

/-- One row of the `connections` table of `config_db.py` (`alias` is the
primary key; `params` is the JSON round trip of the stored bag, which is
the identity on these JSON-representable bags). -/
structure ConnRow where
  alias' : String
  db_type : String
  params : ParamBag

/-- The `connections` table.  The primary key keeps aliases unique, so the
table is modelled as a list in which at most one row carries each alias. -/
abbrev ConfigDb := List ConnRow

/-- `config_db.add_connection` (config_db.py lines 23-35): `INSERT OR
REPLACE` keyed on `alias` — any existing row with that alias is replaced
wholesale by the new row. -/
def add_connection (db : ConfigDb) (alias' db_type : String) (params : ParamBag) : ConfigDb :=
  db.filter (fun r => !(r.alias' == alias')) ++ [⟨alias', db_type, params⟩]

/-- The shape `config_db.get_connection` returns to `execute_query`: a
mongo entry is repackaged as `{"type", "uri", "dbname"}` (via `params.get`,
so a missing key yields `None`); any other kind as `{"type",
"conn_params"}` with the stored bag intact. -/
inductive DbInfo where
  | mongoInfo (uri dbname : Option JVal)
  | sqlInfo (db_type : String) (conn_params : ParamBag)

/-- The `"type"` field of the returned info dict. -/
def DbInfo.type : DbInfo → String
  | .mongoInfo _ _ => "mongo"
  | .sqlInfo t _ => t

/-- `config_db.get_connection` (config_db.py lines 45-59). -/
def get_connection (db : ConfigDb) (alias' : String) : Option DbInfo :=
  match db.find? (fun r => r.alias' == alias') with
  | none => none
  | some row =>
    if row.db_type == "mongo" then
      some (.mongoInfo (bagGet row.params "uri") (bagGet row.params "dbname"))
    else
      some (.sqlInfo row.db_type row.params)

/-- `add_database` (main.py lines 87-104), in state-passing form: the pair
carries the outcome and the registry after the call.  A validation failure
propagates before `config_db.add_connection` runs, so the registry
component is the unchanged input. -/
def addDatabase (reg : ConfigDb) (alias' db_type : String) (host : Option String)
    (port : Option Int) (user : Option String) (password : Option String)
    (dbname : Option String) (uri : Option String) :
    Except String String × ConfigDb :=
  match buildAndValidateParams db_type host port user password dbname uri with
  | .error e => (.error e, reg)
  | .ok params =>
    (.ok ("Database '" ++ alias' ++ "' added successfully."),
     add_connection reg alias' db_type params)

/-- Python truthiness of a JSON value, for `if not query_dict`. -/
def pyFalsy : JVal → Bool
  | .str s => s == ""
  | .num n => n == 0
  | .bool b => !b
  | .null => true
  | .obj fs => fs.isEmpty
  | .arr xs => xs.isEmpty
  | .oid _ => false

/-- `query_dict == {}`: in Python only an empty dict compares equal to `{}`. -/
def isEmptyDict : JVal → Bool
  | .obj fs => fs.isEmpty
  | _ => false

/-- `query_dict.copy() if isinstance(query_dict, dict) else {}`
(main.py line 202): a non-dict query value is replaced by the empty dict. -/
def asDictOrEmpty : JVal → JVal
  | .obj fs => .obj fs
  | _ => .obj []

/-- The `query` argument of `execute_query`: SQL text or a structured
document-store filter (`Union[str, Dict[str, Any]]`). -/
inductive QueryInput where
  | text (s : String)
  | dict (fields : List (String × JVal))

/-- What one `cursor.execute` interaction with a SQL engine does for the
current call: raise, produce a result set (`cursor.description` is set and
`fetchall` yields these rows), or report a mutation count
(`cursor.rowcount`, an `int` that may be negative). -/
inductive ExecOutcome where
  | raises (msg : String)
  | rows (rs : List JVal)
  | mutation (rowcount : Int)

/-- Errors `execute_query` can raise: the `ValueError` for an unknown alias
(raised before the `try` block) and the `RuntimeError` wrapper that the
single `except` boundary re-raises for everything inside it. -/
inductive QueryError where
  | notFound (msg : String)
  | runtime (msg : String)

/-- The `{data, row_count}` response.  `error` is the extra `"error"` note
the document-store branch adds when it refuses an empty query. -/
structure QueryResult where
  data : List JVal
  row_count : Int
  error : Option String

/-- One `execute_query` call, instrumented: the returned value or raised
error, whether the call finished while still holding an opened
connection/client, and the filter actually passed to `collection.find`
(`none` when no find was issued). -/
structure CallTrace where
  result : Except QueryError QueryResult
  connLeftOpen : Bool
  executedMongoFilter : Option JVal

/-- Whether the call returned normally. -/
def CallTrace.succeeded (t : CallTrace) : Bool :=
  match t.result with
  | .ok _ => true
  | .error _ => false

/-- The external behaviors a single call can observe: the SQL engine's
response to `cursor.execute`, Python's `json.loads` (`none` models a parse
exception), and the document store's response to `collection.find(filter)`
before the limit is applied (connection/handshake failures at the first
store operation fold into the `.error` case). -/
structure EngineWorld where
  sqlOutcome : ExecOutcome
  jsonLoads : String → Option JVal
  mongoFindAll : JVal → Except String (List JVal)

/-- The shared shape of the three SQL branches of `execute_query` (main.py
lines 159-168, 170-179, 207-219): the `with` blocks scope the connection
and cursor to the branch on every path, so no path finishes holding them;
a result set returns `{data, row_count == len(data)}`; otherwise the branch
commits and returns `{data: [], row_count: cursor.rowcount}`; an exception
is re-raised by the dispatcher boundary as a `RuntimeError`. -/
def sqlBranchTrace (o : ExecOutcome) : CallTrace :=
  match o with
  | .raises m =>
    { result := .error (.runtime ("Query execution failed: " ++ m)),
      connLeftOpen := false, executedMongoFilter := none }
  | .rows rs =>
    { result := .ok { data := rs, row_count := (rs.length : Int), error := none },
      connLeftOpen := false, executedMongoFilter := none }
  | .mutation n =>
    { result := .ok { data := [], row_count := n, error := none },
      connLeftOpen := false, executedMongoFilter := none }

/-- The document-store branch of `execute_query` (main.py lines 181-205).
`MongoClient` is created first; `client[dbname]` raises unless the stored
dbname is a string; the missing-`collection` `ValueError` and any engine
failure are wrapped by the dispatcher boundary.  `client.close()` is called
only on the line before the final successful return — the empty-query
return and every raising path finish with the client still open.  The
`json_util.dumps`/`json.loads` round trip re-encodes the found documents
structurally and is modelled as the identity on them. -/
def mongoBranchTrace (world : EngineWorld) (query : QueryInput)
    (collection : Option String) (_uriOpt dbnameOpt : Option JVal) : CallTrace :=
  match dbnameOpt with
  | some (.str _) =>
    if !(strTruthy collection) then
      { result := .error (.runtime
          "Query execution failed: MongoDB query requires a 'collection' to be specified."),
        connLeftOpen := true, executedMongoFilter := none }
    else
      let query_dict : JVal :=
        match query with
        | .text s => (world.jsonLoads s).getD (.str s)
        | .dict fs => .obj fs
      if pyFalsy query_dict || isEmptyDict query_dict then
        { result := .ok
            ⟨[], 0, some "Empty queries not allowed to prevent large results"⟩,
          connLeftOpen := true, executedMongoFilter := none }
      else
        let filter_query := convert (asDictOrEmpty query_dict)
        match world.mongoFindAll filter_query with
        | .error e =>
          { result := .error (.runtime ("Query execution failed: " ++ e)),
            connLeftOpen := true, executedMongoFilter := some filter_query }
        | .ok found =>
          let documents := found.take 10
          { result := .ok ⟨documents, (documents.length : Int), none⟩,
            connLeftOpen := false, executedMongoFilter := some filter_query }
  | _ =>
    { result := .error (.runtime
        "Query execution failed: database name must be an instance of str"),
      connLeftOpen := true, executedMongoFilter := none }

/-- `execute_query` (main.py lines 140-225): resolve the alias (absent ⇒
`ValueError` before the `try` block), then dispatch on the stored engine
kind.  An unsupported kind raises inside the `try` block and is therefore
wrapped as a `RuntimeError`.  `params` and `oracle_schema` only influence
the engine interaction, which `EngineWorld` abstracts. -/
def executeQuery (world : EngineWorld) (db : ConfigDb) (database_alias : String)
    (query : QueryInput) (_params : Option ParamBag)
    (collection : Option String) (_oracle_schema : Option String) : CallTrace :=
  match get_connection db database_alias with
  | none =>
    { result := .error (.notFound
        ("Database alias '" ++ database_alias ++ "' not found in configuration.")),
      connLeftOpen := false, executedMongoFilter := none }
  | some (.mongoInfo uriOpt dbnameOpt) =>
    mongoBranchTrace world query collection uriOpt dbnameOpt
  | some (.sqlInfo t _conn_params) =>
    if t == "postgres" || t == "mysql" || t == "oracle" then
      sqlBranchTrace world.sqlOutcome
    else
      { result := .error (.runtime
          ("Query execution failed: Unsupported database type: " ++ t)),
        connLeftOpen := false, executedMongoFilter := none }

/-- The dict walk distributes over appending two runs of fields. -/
theorem convertFields_append (l₁ l₂ : List (String × JVal)) :
    convertFields (l₁ ++ l₂) = convertFields l₁ ++ convertFields l₂ := by
  induction l₁ with
  | nil => rfl
  | cons x xs ih => cases x; simp [convertFields, ih]

/-- The list walk is a map of the per-element transformation. -/
theorem convertItems_eq_map (l : List JVal) : convertItems l = l.map convertItem := by
  induction l with
  | nil => rfl
  | cons x xs ih => cases x <;> simp [convertItems, convertItem, ih]

/-- A valid 24-hex-character string converts to the ObjectId it denotes. -/
theorem convertValue_valid_str (s : String) (h : isValidOid s = true) :
    convertValue (.str s) = .oid s := by
  have h' : (s.length == 24 && s.data.all isHexChar) = true := h
  have hlen : (s.length == 24) = true := (Bool.and_eq_true_iff.mp h').1
  simp [convertValue, tryObjectId, hlen, h]

/-- A singleton `$oid` marker map with a valid string converts to the same
ObjectId. -/
theorem convertValue_marker (s : String) (h : isValidOid s = true) :
    convertValue (.obj [("$oid", .str s)]) = .oid s := by
  simp [convertValue, List.find?, tryObjectId, h]

/-- C4: a filter field holding a 24-character string with a valid
identifier round trip is coerced to exactly the executed filter that the
explicit `{"$oid": s}` marker form produces — both become the native
ObjectId, so the same filter (and hence the same document set) is executed
either way. -/
theorem objectid_string_and_marker_equivalent (pre post : List (String × JVal))
    (k s : String) (h : isValidOid s = true) :
    convert (.obj (pre ++ (k, .str s) :: post))
      = convert (.obj (pre ++ (k, .obj [("$oid", .str s)]) :: post))
    ∧ convert (.obj (pre ++ (k, .str s) :: post))
      = .obj (convertFields pre ++ (k, .oid s) :: convertFields post) := by
  have e1 := convertValue_valid_str s h
  have e2 := convertValue_marker s h
  constructor
  · simp [convert, convertFields_append, convertFields, e1, e2]
  · simp [convert, convertFields_append, convertFields, e1]

/-- C4 witness at a concrete filter. -/
theorem objectid_string_and_marker_equivalent_witness :
    isValidOid "507f1f77bcf86cd799439011" = true
    ∧ (convert (.obj ([] ++ ("campaign", .str "507f1f77bcf86cd799439011") :: []))
        = convert (.obj ([] ++ ("campaign",
            .obj [("$oid", .str "507f1f77bcf86cd799439011")]) :: []))
      ∧ convert (.obj ([] ++ ("campaign", .str "507f1f77bcf86cd799439011") :: []))
        = .obj (convertFields [] ++ ("campaign", .oid "507f1f77bcf86cd799439011")
            :: convertFields [])) :=
  ⟨rfl, objectid_string_and_marker_equivalent [] [] "campaign"
    "507f1f77bcf86cd799439011" rfl⟩

/-- C10: the coercion touches only strings occurring directly as dict
values — a 24-character string sitting inside a list value (for example
inside an `$in` clause) is passed through `convertItems` unchanged, as a
plain string, at the same position. -/
theorem list_elements_not_coerced (pre post : List (String × JVal)) (k : String)
    (items : List JVal) (i : Nat) (s : String)
    (hlen : s.length = 24) (hi : items.get? i = some (.str s)) :
    convert (.obj (pre ++ (k, .arr items) :: post))
      = .obj (convertFields pre ++ (k, .arr (convertItems items)) :: convertFields post)
    ∧ (convertItems items).get? i = some (.str s) := by
  constructor
  · simp [convert, convertFields_append, convertFields, convertValue]
  · rw [convertItems_eq_map, List.get?_map, hi]
    rfl

/-- C10 witness at a concrete `$in`-style list. -/
theorem list_elements_not_coerced_witness :
    ("507f1f77bcf86cd799439011" : String).length = 24
    ∧ [JVal.str "507f1f77bcf86cd799439011"].get? 0
        = some (.str "507f1f77bcf86cd799439011")
    ∧ (convert (.obj ([] ++ ("tags", .arr [JVal.str "507f1f77bcf86cd799439011"]) :: []))
        = .obj (convertFields [] ++
            ("tags", .arr (convertItems [JVal.str "507f1f77bcf86cd799439011"]))
            :: convertFields [])
      ∧ (convertItems [JVal.str "507f1f77bcf86cd799439011"]).get? 0
          = some (.str "507f1f77bcf86cd799439011")) :=
  ⟨rfl, rfl, list_elements_not_coerced [] [] "tags"
    [JVal.str "507f1f77bcf86cd799439011"] 0 "507f1f77bcf86cd799439011" rfl rfl⟩

/-- A stored document-store parameter bag, as the builder produces it. -/
def sampleMongoBag : ParamBag :=
  [("uri", .str "mongodb://localhost:27017"), ("dbname", .str "app")]

/-- A registry holding one document-store alias `"m"`. -/
def sampleDb : ConfigDb := [⟨"m", "mongo", sampleMongoBag⟩]

/-- A concrete environment: `json.loads "5"` yields the number `5` (every
other string is treated as unparseable), and the store finds nothing. -/
def sampleWorld : EngineWorld :=
  { sqlOutcome := .rows [],
    jsonLoads := fun s => if s == "5" then some (.num 5) else none,
    mongoFindAll := fun _ => .ok [] }

/-- C1 (bug witness): with the string query `"5"` — valid JSON that parses
to the number `5`, which is truthy and not a dict — the guard at main.py
line 199 is passed, line 202 replaces the non-dict value by `{}`, and the
find at line 203 executes with the empty filter, which the claim (and the
source's own comment "Prevent empty queries to avoid large results") says
must never happen. -/
theorem mongo_nondict_query_executes_empty_filter :
    (executeQuery sampleWorld sampleDb "m" (.text "5") none (some "optins") none).executedMongoFilter
      = some (JVal.obj [])
    ∧ (executeQuery sampleWorld sampleDb "m" (.text "5") none (some "optins") none).succeeded
      = true :=
  ⟨rfl, rfl⟩

/-- C2 (counterexample): the empty-query early return of the document-store
branch (main.py line 200) returns the zero-row result without ever reaching
`client.close()` (line 204), so this exit path leaves the connection open,
refuting the claim that every exit path releases it. -/
theorem mongo_empty_query_return_leaves_client_open :
    (executeQuery sampleWorld sampleDb "m" (.dict []) none (some "optins") none).result
      = .ok ⟨[], 0, some "Empty queries not allowed to prevent large results"⟩
    ∧ (executeQuery sampleWorld sampleDb "m" (.dict []) none (some "optins") none).connLeftOpen
      = true :=
  ⟨rfl, rfl⟩

/-- Dispatch equation: unknown alias. -/
theorem executeQuery_none (world : EngineWorld) (db : ConfigDb) (a : String)
    (q : QueryInput) (p : Option ParamBag) (c s : Option String)
    (hg : get_connection db a = none) :
    executeQuery world db a q p c s =
      { result := .error (.notFound
          ("Database alias '" ++ a ++ "' not found in configuration.")),
        connLeftOpen := false, executedMongoFilter := none } := by
  unfold executeQuery; rw [hg]

/-- Dispatch equation: document-store entry. -/
theorem executeQuery_mongo (world : EngineWorld) (db : ConfigDb) (a : String)
    (q : QueryInput) (p : Option ParamBag) (c s : Option String)
    (u d : Option JVal) (hg : get_connection db a = some (.mongoInfo u d)) :
    executeQuery world db a q p c s = mongoBranchTrace world q c u d := by
  unfold executeQuery; rw [hg]

/-- Dispatch equation: SQL entry. -/
theorem executeQuery_sql (world : EngineWorld) (db : ConfigDb) (a : String)
    (q : QueryInput) (p : Option ParamBag) (c s : Option String)
    (t : String) (cp : ParamBag) (hg : get_connection db a = some (.sqlInfo t cp)) :
    executeQuery world db a q p c s =
      (if t == "postgres" || t == "mysql" || t == "oracle" then
        sqlBranchTrace world.sqlOutcome
      else
        { result := .error (.runtime
            ("Query execution failed: Unsupported database type: " ++ t)),
          connLeftOpen := false, executedMongoFilter := none }) := by
  unfold executeQuery; rw [hg]

/-- The document-store branch finishes with the client closed exactly when
it returned normally after issuing a find. -/
theorem mongoBranch_leftOpen (world : EngineWorld) (q : QueryInput)
    (c : Option String) (u d : Option JVal) :
    (mongoBranchTrace world q c u d).connLeftOpen = true ↔
      ¬((mongoBranchTrace world q c u d).succeeded = true ∧
        (mongoBranchTrace world q c u d).executedMongoFilter.isSome = true) := by
  cases q
  all_goals
    unfold mongoBranchTrace
    dsimp only
    split
    · split
      · simp [CallTrace.succeeded]
      · split
        · simp [CallTrace.succeeded]
        · split
          · simp [CallTrace.succeeded]
          · simp [CallTrace.succeeded]
    · simp [CallTrace.succeeded]

/-- C2 (amended): across all calls, the connection or client is left open
at exit exactly when the entry is a document-store one and the call did not
finish as a successful find — the SQL branches scope their connection and
cursor in `with` blocks, while the Mongo branch closes its client only on
the successful-find return. -/
theorem connection_release_characterization (world : EngineWorld) (db : ConfigDb)
    (a : String) (q : QueryInput) (p : Option ParamBag) (c s : Option String) :
    (executeQuery world db a q p c s).connLeftOpen = true ↔
      ((∃ u d, get_connection db a = some (.mongoInfo u d)) ∧
        ¬((executeQuery world db a q p c s).succeeded = true ∧
          (executeQuery world db a q p c s).executedMongoFilter.isSome = true)) := by
  cases hg : get_connection db a with
  | none =>
    rw [executeQuery_none world db a q p c s hg]
    simp [hg, CallTrace.succeeded]
  | some info =>
    cases info with
    | mongoInfo u d =>
      rw [executeQuery_mongo world db a q p c s u d hg]
      simp only [hg, Option.some.injEq, DbInfo.mongoInfo.injEq]
      have hex : (∃ u' d', u = u' ∧ d = d') := ⟨u, d, rfl, rfl⟩
      simpa [hex] using mongoBranch_leftOpen world q c u d
    | sqlInfo t cp =>
      rw [executeQuery_sql world db a q p c s t cp hg]
      have hne : ¬(∃ u' d', get_connection db a = some (.mongoInfo u' d')) := by
        rintro ⟨u', d', h'⟩
        rw [hg] at h'
        exact absurd h' (by simp)
      split
      · cases world.sqlOutcome <;> simp [sqlBranchTrace, CallTrace.succeeded, hne]
      · simp [CallTrace.succeeded, hne]

/-- A successful SQL branch is either a fetched result set or a committed
mutation. -/
theorem sqlBranch_result_ok (o : ExecOutcome) (r : QueryResult)
    (h : (sqlBranchTrace o).result = .ok r) :
    (∃ rs, o = .rows rs ∧ r = ⟨rs, (rs.length : Int), none⟩)
    ∨ (∃ n, o = .mutation n ∧ r = ⟨[], n, none⟩) := by
  cases o with
  | raises m => simp [sqlBranchTrace] at h
  | rows rs =>
    left
    refine ⟨rs, rfl, ?_⟩
    simpa [sqlBranchTrace] using h.symm
  | mutation n =>
    right
    refine ⟨n, rfl, ?_⟩
    simpa [sqlBranchTrace] using h.symm

/-- Every normal return of the document-store branch reports
`row_count == len(data)` and at most 10 documents. -/
theorem mongoBranch_result_ok (world : EngineWorld) (q : QueryInput)
    (c : Option String) (u d : Option JVal) (r : QueryResult)
    (h : (mongoBranchTrace world q c u d).result = .ok r) :
    r.row_count = (r.data.length : Int) ∧ r.data.length ≤ 10 := by
  cases q
  all_goals
    unfold mongoBranchTrace at h
    dsimp only at h
    split at h
    · split at h
      · simp at h
      · split at h
        · have hr := Except.ok.inj h
          subst hr
          simp
        · split at h
          · simp at h
          · have hr := Except.ok.inj h
            subst hr
            exact ⟨rfl, List.length_take_le 10 _⟩
    · simp at h

/-- C3: every successful `execute_query` call either reports a mutation —
empty `data` with `row_count` equal to the engine-reported affected count —
or reports `row_count` equal to the length of `data` (all read paths,
including every document-store return, satisfy the latter). -/
theorem row_count_matches_data_length (world : EngineWorld) (db : ConfigDb)
    (a : String) (q : QueryInput) (p : Option ParamBag) (c s : Option String)
    (r : QueryResult) (h : (executeQuery world db a q p c s).result = .ok r) :
    (r.data = [] ∧ ∃ n, world.sqlOutcome = .mutation n ∧ r.row_count = n)
    ∨ r.row_count = (r.data.length : Int) := by
  cases hg : get_connection db a with
  | none =>
    rw [executeQuery_none world db a q p c s hg] at h
    simp at h
  | some info =>
    cases info with
    | mongoInfo u d =>
      rw [executeQuery_mongo world db a q p c s u d hg] at h
      exact Or.inr (mongoBranch_result_ok world q c u d r h).1
    | sqlInfo t cp =>
      rw [executeQuery_sql world db a q p c s t cp hg] at h
      split at h
      · rcases sqlBranch_result_ok world.sqlOutcome r h with ⟨rs, _, hr⟩ | ⟨n, ho, hr⟩
        · subst hr
          exact Or.inr rfl
        · subst hr
          exact Or.inl ⟨rfl, n, ho, rfl⟩
      · simp at h

/-- A stored SQL parameter bag, as the builder produces it. -/
def sampleSqlBag : ParamBag :=
  [("host", .str "localhost"), ("port", .num 5432),
   ("user", .str "u"), ("password", .str "pw"), ("dbname", .str "d")]

/-- A registry holding one relational alias `"p"`. -/
def sampleSqlDb : ConfigDb := [⟨"p", "postgres", sampleSqlBag⟩]

/-- An environment whose SQL engine returns one row. -/
def oneRowWorld : EngineWorld :=
  { sqlOutcome := .rows [.obj [("x", .num 1)]],
    jsonLoads := fun _ => none,
    mongoFindAll := fun _ => .ok [] }

/-- The result `oneRowWorld` produces. -/
def oneRowResult : QueryResult := ⟨[.obj [("x", .num 1)]], 1, none⟩

/-- C3 witness: a concrete read query returning one row. -/
theorem row_count_matches_data_length_witness :
    (executeQuery oneRowWorld sampleSqlDb "p" (.text "SELECT 1") none none none).result
        = .ok oneRowResult
    ∧ ((oneRowResult.data = [] ∧
          ∃ n, oneRowWorld.sqlOutcome = .mutation n ∧ oneRowResult.row_count = n)
        ∨ oneRowResult.row_count = (oneRowResult.data.length : Int)) :=
  ⟨rfl, row_count_matches_data_length oneRowWorld sampleSqlDb "p"
    (.text "SELECT 1") none none none oneRowResult rfl⟩

/-- C5: a document-store `execute_query` call that returns normally never
carries more than 10 documents, and its `row_count` never exceeds 10. -/
theorem mongo_result_capped_at_ten (world : EngineWorld) (db : ConfigDb)
    (a : String) (q : QueryInput) (p : Option ParamBag) (c s : Option String)
    (u d : Option JVal) (r : QueryResult)
    (hinfo : get_connection db a = some (.mongoInfo u d))
    (hok : (executeQuery world db a q p c s).result = .ok r) :
    r.data.length ≤ 10 ∧ r.row_count ≤ (10 : Int) := by
  rw [executeQuery_mongo world db a q p c s u d hinfo] at hok
  obtain ⟨hcount, hlen⟩ := mongoBranch_result_ok world q c u d r hok
  refine ⟨hlen, ?_⟩
  rw [hcount]
  exact_mod_cast hlen

/-- An environment whose store matches twelve documents. -/
def twelveDocsWorld : EngineWorld :=
  { sqlOutcome := .rows [],
    jsonLoads := fun _ => none,
    mongoFindAll := fun _ => .ok (List.replicate 12 (.obj [("k", .num 0)])) }

/-- The capped result `twelveDocsWorld` produces. -/
def cappedResult : QueryResult :=
  ⟨List.replicate 10 (.obj [("k", .num 0)]), 10, none⟩

/-- C5 witness: twelve matching documents come back as ten. -/
theorem mongo_result_capped_at_ten_witness :
    get_connection sampleDb "m"
        = some (.mongoInfo (some (.str "mongodb://localhost:27017")) (some (.str "app")))
    ∧ (executeQuery twelveDocsWorld sampleDb "m" (.dict [("a", .num 1)]) none
        (some "optins") none).result = .ok cappedResult
    ∧ (cappedResult.data.length ≤ 10 ∧ cappedResult.row_count ≤ (10 : Int)) :=
  ⟨rfl, rfl, mongo_result_capped_at_ten twelveDocsWorld sampleDb "m"
    (.dict [("a", .num 1)]) none (some "optins") none
    (some (.str "mongodb://localhost:27017")) (some (.str "app"))
    cappedResult rfl rfl⟩

/-- C8: an alias absent from the registry makes `execute_query` fail with
the not-found error, whatever the query, bind parameters, collection or
schema arguments are. -/
theorem execute_query_unknown_alias_not_found (world : EngineWorld)
    (db : ConfigDb) (a : String) (q : QueryInput) (p : Option ParamBag)
    (c s : Option String) (h : get_connection db a = none) :
    (executeQuery world db a q p c s).result
      = .error (.notFound
          ("Database alias '" ++ a ++ "' not found in configuration.")) := by
  rw [executeQuery_none world db a q p c s h]

/-- C8 witness: the empty registry knows no alias. -/
theorem execute_query_unknown_alias_not_found_witness :
    get_connection [] "ghost" = none
    ∧ (executeQuery oneRowWorld [] "ghost" (.text "SELECT 1") none none none).result
        = .error (.notFound "Database alias 'ghost' not found in configuration.") :=
  ⟨rfl, execute_query_unknown_alias_not_found oneRowWorld [] "ghost"
    (.text "SELECT 1") none none none rfl⟩

/-- C6: a complete legacy-sql (oracle) field set builds a bag whose `dsn`
is exactly `host:port/database_name`, and the bag carries no `host`, `port`
or `dbname` keys — they were popped into the DSN. -/
theorem oracle_build_connect_descriptor (h : String) (p : Int) (u pw d : String)
    (hh : h ≠ "") (hp : p ≠ 0) (hu : u ≠ "") (hpw : pw ≠ "") (hd : d ≠ "") :
    buildAndValidateParams "oracle" (some h) (some p) (some u) (some pw) (some d) none
      = .ok [("user", .str u), ("password", .str pw),
             ("dsn", .str (h ++ ":" ++ toString p ++ "/" ++ d))]
    ∧ bagHasKey [("user", .str u), ("password", .str pw),
             ("dsn", .str (h ++ ":" ++ toString p ++ "/" ++ d))] "host" = false
    ∧ bagHasKey [("user", .str u), ("password", .str pw),
             ("dsn", .str (h ++ ":" ++ toString p ++ "/" ++ d))] "port" = false
    ∧ bagHasKey [("user", .str u), ("password", .str pw),
             ("dsn", .str (h ++ ":" ++ toString p ++ "/" ++ d))] "dbname" = false := by
  refine ⟨?_, rfl, rfl, rfl⟩
  have hguard : (strTruthy (some h) && intTruthy (some p) && strTruthy (some u) &&
      strTruthy (some pw) && strTruthy (some d)) = true := by
    simp [strTruthy, intTruthy, hh, hp, hu, hpw, hd]
  unfold buildAndValidateParams
  rw [if_neg (by decide), if_pos (by decide), if_neg (by rw [hguard]; decide)]
  rfl

/-- C6 witness at the spec's own example field set. -/
theorem oracle_build_connect_descriptor_witness :
    ("h" : String) ≠ "" ∧ (1521 : Int) ≠ 0 ∧ ("u" : String) ≠ ""
    ∧ ("pw" : String) ≠ "" ∧ ("d" : String) ≠ ""
    ∧ (buildAndValidateParams "oracle" (some "h") (some 1521) (some "u")
          (some "pw") (some "d") none
        = .ok [("user", .str "u"), ("password", .str "pw"), ("dsn", .str "h:1521/d")]
      ∧ bagHasKey [("user", .str "u"), ("password", .str "pw"),
          ("dsn", .str "h:1521/d")] "host" = false
      ∧ bagHasKey [("user", .str "u"), ("password", .str "pw"),
          ("dsn", .str "h:1521/d")] "port" = false
      ∧ bagHasKey [("user", .str "u"), ("password", .str "pw"),
          ("dsn", .str "h:1521/d")] "dbname" = false) :=
  ⟨by decide, by decide, by decide, by decide, by decide,
    oracle_build_connect_descriptor "h" 1521 "u" "pw" "d"
      (by decide) (by decide) (by decide) (by decide) (by decide)⟩

/-- The condition under which the source's validation rejects a field set:
exactly the `if` guards of `_build_and_validate_params` (Python truthiness:
`None`, `""` and `0` all count as missing). -/
def requiredFieldMissing (db_type : String) (host : Option String)
    (port : Option Int) (user password dbname uri : Option String) : Bool :=
  if db_type == "mongo" then
    !(strTruthy uri) || !(strTruthy dbname)
  else if ["postgres", "mysql", "oracle"].contains db_type then
    !(strTruthy host && intTruthy port && strTruthy user &&
        strTruthy password && strTruthy dbname)
  else false

/-- The engine-kind name as the validation messages spell it (`"MongoDB"`
for the mongo kind, the kind string itself otherwise). -/
def engineKindName (db_type : String) : String :=
  if db_type == "mongo" then "MongoDB" else db_type

/-- Whether a character sequence starts with the given pattern. -/
def seqStartsWith : List Char → List Char → Bool
  | _, [] => true
  | [], _ :: _ => false
  | a :: as, b :: bs => a == b && seqStartsWith as bs

/-- Whether the pattern occurs contiguously inside the sequence. -/
def seqContains : List Char → List Char → Bool
  | [], sub => seqStartsWith [] sub
  | c :: cs, sub => seqStartsWith (c :: cs) sub || seqContains cs sub

/-- Substring occurrence on strings. -/
def strContains (s pat : String) : Bool :=
  seqContains s.data pat.data

/-- C7: for each supported engine kind, a field set with a required field
missing makes the builder fail with a message naming the engine kind, no
bag is ever constructed, and a failing `add_database` leaves the registry
exactly as it was. -/
theorem build_missing_field_validation (db_type : String) (host : Option String)
    (port : Option Int) (user password dbname uri : Option String)
    (hkind : db_type = "mongo" ∨ db_type = "postgres" ∨ db_type = "mysql"
        ∨ db_type = "oracle")
    (hmiss : requiredFieldMissing db_type host port user password dbname uri = true) :
    (∃ msg, buildAndValidateParams db_type host port user password dbname uri
        = .error msg ∧ strContains msg (engineKindName db_type) = true)
    ∧ ∀ (reg : ConfigDb) (a : String),
        (addDatabase reg a db_type host port user password dbname uri).2 = reg := by
  rcases hkind with rfl | rfl | rfl | rfl
  · have hmiss' : (!(strTruthy uri) || !(strTruthy dbname)) = true := hmiss
    have hb : buildAndValidateParams "mongo" host port user password dbname uri
        = .error "For MongoDB, 'uri' and 'dbname' are required." := by
      unfold buildAndValidateParams
      rw [hmiss']
      rfl
    exact ⟨⟨_, hb, by decide⟩, fun reg a => by simp [addDatabase, hb]⟩
  · have hmiss' : (!(strTruthy host && intTruthy port && strTruthy user &&
        strTruthy password && strTruthy dbname)) = true := hmiss
    have hb : buildAndValidateParams "postgres" host port user password dbname uri
        = .error "For postgres, 'host', 'port', 'user', 'password', and 'dbname' are required." := by
      unfold buildAndValidateParams
      rw [hmiss']
      rfl
    exact ⟨⟨_, hb, by decide⟩, fun reg a => by simp [addDatabase, hb]⟩
  · have hmiss' : (!(strTruthy host && intTruthy port && strTruthy user &&
        strTruthy password && strTruthy dbname)) = true := hmiss
    have hb : buildAndValidateParams "mysql" host port user password dbname uri
        = .error "For mysql, 'host', 'port', 'user', 'password', and 'dbname' are required." := by
      unfold buildAndValidateParams
      rw [hmiss']
      rfl
    exact ⟨⟨_, hb, by decide⟩, fun reg a => by simp [addDatabase, hb]⟩
  · have hmiss' : (!(strTruthy host && intTruthy port && strTruthy user &&
        strTruthy password && strTruthy dbname)) = true := hmiss
    have hb : buildAndValidateParams "oracle" host port user password dbname uri
        = .error "For oracle, 'host', 'port', 'user', 'password', and 'dbname' are required." := by
      unfold buildAndValidateParams
      rw [hmiss']
      rfl
    exact ⟨⟨_, hb, by decide⟩, fun reg a => by simp [addDatabase, hb]⟩

/-- C7 witness: a postgres field set with every field absent. -/
theorem build_missing_field_validation_witness :
    (("postgres" : String) = "mongo" ∨ ("postgres" : String) = "postgres"
      ∨ ("postgres" : String) = "mysql" ∨ ("postgres" : String) = "oracle")
    ∧ requiredFieldMissing "postgres" none none none none none none = true
    ∧ ((∃ msg, buildAndValidateParams "postgres" none none none none none none
          = .error msg ∧ strContains msg (engineKindName "postgres") = true)
      ∧ ∀ (reg : ConfigDb) (a : String),
          (addDatabase reg a "postgres" none none none none none none).2 = reg) :=
  ⟨Or.inr (Or.inl rfl), rfl,
    build_missing_field_validation "postgres" none none none none none none
      (Or.inr (Or.inl rfl)) rfl⟩

/-- No row with the given alias survives the filter `add_connection`
applies before appending. -/
theorem find?_filter_self (db : ConfigDb) (a : String) :
    (db.filter (fun r => !(r.alias' == a))).find? (fun r => r.alias' == a) = none := by
  induction db with
  | nil => rfl
  | cons r rest ih =>
    cases hra : (r.alias' == a) with
    | true => simpa [List.filter_cons, hra] using ih
    | false => simpa [List.filter_cons, hra, List.find?_cons, hra] using ih

/-- Looking an alias up right after upserting it yields the new row. -/
theorem find?_add_connection (db : ConfigDb) (a t : String) (p : ParamBag) :
    (add_connection db a t p).find? (fun r => r.alias' == a) = some ⟨a, t, p⟩ := by
  unfold add_connection
  rw [List.find?_append, find?_filter_self]
  simp [List.find?_cons]

/-- `get_connection` right after `add_connection` sees exactly the new
entry, shaped per its kind. -/
theorem get_connection_add (db : ConfigDb) (a t : String) (p : ParamBag) :
    get_connection (add_connection db a t p) a =
      some (if t == "mongo" then
              .mongoInfo (bagGet p "uri") (bagGet p "dbname")
            else .sqlInfo t p) := by
  unfold get_connection
  rw [find?_add_connection]
  cases htm : (t == "mongo") <;> simp [htm]

/-- Re-upserting the same alias wipes the previous row entirely: two
upserts in a row equal the last one alone. -/
theorem add_connection_replace (db : ConfigDb) (a : String) (t2 : String)
    (p2 : ParamBag) (t : String) (p : ParamBag) :
    add_connection (add_connection db a t2 p2) a t p = add_connection db a t p := by
  unfold add_connection
  rw [List.filter_append, List.filter_filter]
  simp

/-- The builder's mongo bags hold exactly a `uri` and a `dbname` string. -/
theorem buildOk_mongo_shape (host : Option String) (port : Option Int)
    (user password dbname uri : Option String) (p : ParamBag)
    (h : buildAndValidateParams "mongo" host port user password dbname uri = .ok p) :
    ∃ us ds, p = [("uri", .str us), ("dbname", .str ds)] := by
  have h' : (if (!(strTruthy uri) || !(strTruthy dbname)) = true then
      (Except.error "For MongoDB, 'uri' and 'dbname' are required." : Except String ParamBag)
    else .ok [("uri", .str (uri.getD "")), ("dbname", .str (dbname.getD ""))]) = .ok p := h
  split at h'
  · simp at h'
  · exact ⟨_, _, (Except.ok.inj h').symm⟩

/-- Equivalence of a `get_connection` info dict with a stored bag: a SQL
info carries the bag unchanged; a mongo info carries the bag's `uri` and
`dbname` values, and the builder-produced bag holds nothing else. -/
def infoBagEquiv : DbInfo → ParamBag → Prop
  | .mongoInfo u d, p =>
      u = bagGet p "uri" ∧ d = bagGet p "dbname"
      ∧ ∃ uv dv, p = [("uri", uv), ("dbname", dv)]
  | .sqlInfo _ cp, p => cp = p

/-- C9: upserting a valid entry and reading it back yields the same engine
kind and an equivalent parameter bag, and a second upsert under the same
alias replaces the first wholesale — the earlier kind and bag leave no
trace. -/
theorem upsert_get_roundtrip_and_replace (db : ConfigDb) (a t : String)
    (p : ParamBag) (t2 : String) (p2 : ParamBag)
    (hvalid : ∃ host port user password dbname uri,
        buildAndValidateParams t host port user password dbname uri = .ok p) :
    (∃ info, get_connection (add_connection db a t p) a = some info
        ∧ info.type = t ∧ infoBagEquiv info p)
    ∧ get_connection (add_connection (add_connection db a t2 p2) a t p) a
        = get_connection (add_connection db a t p) a := by
  refine ⟨?_, by rw [add_connection_replace]⟩
  rw [get_connection_add]
  by_cases ht : t = "mongo"
  · subst ht
    rcases hvalid with ⟨h0, p0, u0, pw0, d0, ur0, hb⟩
    rcases buildOk_mongo_shape h0 p0 u0 pw0 d0 ur0 p hb with ⟨us, ds, rfl⟩
    exact ⟨DbInfo.mongoInfo (some (.str us)) (some (.str ds)),
      rfl, rfl, rfl, rfl, JVal.str us, JVal.str ds, rfl⟩
  · have ht' : (t == "mongo") = false := by
      simpa using ht
    refine ⟨DbInfo.sqlInfo t p, ?_, rfl, rfl⟩
    rw [ht']
    rfl

/-- C9 witness: a mongo entry stored then read back, after overwriting an
earlier postgres entry under the same alias. -/
theorem upsert_get_roundtrip_and_replace_witness :
    (∃ host port user password dbname uri,
        buildAndValidateParams "mongo" host port user password dbname uri
          = .ok [("uri", JVal.str "mongodb://localhost:27017"), ("dbname", JVal.str "app")])
    ∧ ((∃ info,
          get_connection (add_connection [] "m" "mongo"
            [("uri", JVal.str "mongodb://localhost:27017"), ("dbname", JVal.str "app")]) "m"
            = some info
          ∧ info.type = "mongo"
          ∧ infoBagEquiv info
              [("uri", JVal.str "mongodb://localhost:27017"), ("dbname", JVal.str "app")])
      ∧ get_connection (add_connection (add_connection [] "m" "postgres" sampleSqlBag)
            "m" "mongo"
            [("uri", JVal.str "mongodb://localhost:27017"), ("dbname", JVal.str "app")]) "m"
          = get_connection (add_connection [] "m" "mongo"
              [("uri", JVal.str "mongodb://localhost:27017"), ("dbname", JVal.str "app")]) "m") :=
  ⟨⟨none, none, none, none, some "app", some "mongodb://localhost:27017", rfl⟩,
    upsert_get_roundtrip_and_replace [] "m" "mongo"
      [("uri", JVal.str "mongodb://localhost:27017"), ("dbname", JVal.str "app")]
      "postgres" sampleSqlBag
      ⟨none, none, none, none, some "app", some "mongodb://localhost:27017", rfl⟩⟩
